import Mathlib

/-!
Verification of `mockextras.matchers` (src/mockextras/matchers.py).

The module defines three matcher classes — `Any`, `Contains`, `AnyOf` — whose
`__eq__` / `__ne__` / `__repr__` methods implement wildcard matching.  The code
targets Python 2 (it uses the `basestring` builtin, and relies on `str` having
no `__iter__` attribute, both Python-2 facts).

We embed the fragment of the Python 2 data model that the matchers touch:
a universe of runtime values, the type hierarchy with `isinstance`/`issubclass`,
the membership protocol (`in`, which raises `TypeError` on non-containers),
`set` construction and membership (which raise `TypeError` on unhashable
values), `repr`/`str`, and the equality-operator dispatch protocol (a builtin
value compared against an instance of an unknown class returns
`NotImplemented`, so the comparison is reflected to the matcher's `__eq__`).
-/

namespace Mockextras

/-- The Python types appearing in the embedding: `object`, the builtins the
matchers interact with, and two user-defined classes `Animal` and
`Dog(Animal)` used to exercise proper subtyping in `isinstance`. -/
inductive PyType where
  | obj        -- object
  | noneT      -- NoneType
  | intT       -- int
  | strT       -- str
  | unicodeT   -- unicode (Python 2)
  | baseStrT   -- basestring (Python 2 abstract base of str and unicode)
  | listT      -- list
  | tupleT     -- tuple
  | animalT    -- class Animal(object)
  | dogT       -- class Dog(Animal)
deriving DecidableEq, Repr

/-- The method-resolution ancestors of a type: the type itself followed by its
base classes up to `object`.  This is the closure of the `class C(B)` base
declarations (str and unicode derive from basestring in Python 2; Dog derives
from Animal; everything derives from object). -/
def ancestorsOf : PyType → List PyType
  | .obj => [.obj]
  | .noneT => [.noneT, .obj]
  | .intT => [.intT, .obj]
  | .strT => [.strT, .baseStrT, .obj]
  | .unicodeT => [.unicodeT, .baseStrT, .obj]
  | .baseStrT => [.baseStrT, .obj]
  | .listT => [.listT, .obj]
  | .tupleT => [.tupleT, .obj]
  | .animalT => [.animalT, .obj]
  | .dogT => [.dogT, .animalT, .obj]

/-- `issubclass(a, b)`: `a` is `b` or derives (transitively) from `b`. -/
def issubclass (a b : PyType) : Bool := b ∈ ancestorsOf a

/-- `cls.__name__`: the bare name of the type. -/
def typeName : PyType → String
  | .obj => "object"
  | .noneT => "NoneType"
  | .intT => "int"
  | .strT => "str"
  | .unicodeT => "unicode"
  | .baseStrT => "basestring"
  | .listT => "list"
  | .tupleT => "tuple"
  | .animalT => "Animal"
  | .dogT => "Dog"

/-- `str(cls)` / `'%s' % cls`: how CPython 2 renders a type object when
interpolated with `%s`.  For builtin types this is `<type 'name'>`, for
new-style user classes `<class 'module.Name'>` — in either case it is NOT the
bare `__name__`.  (Apostrophes are written as the escape \x27.) -/
def typeStr : PyType → String
  | .obj => "<type \x27object\x27>"
  | .noneT => "<type \x27NoneType\x27>"
  | .intT => "<type \x27int\x27>"
  | .strT => "<type \x27str\x27>"
  | .unicodeT => "<type \x27unicode\x27>"
  | .baseStrT => "<type \x27basestring\x27>"
  | .listT => "<type \x27list\x27>"
  | .tupleT => "<type \x27tuple\x27>"
  | .animalT => "<class \x27__main__.Animal\x27>"
  | .dogT => "<class \x27__main__.Dog\x27>"

/-- Runtime Python values.  `animal`/`dog` are instances of the user classes;
their `Nat` tag stands for object identity (default `__eq__`/`__hash__` of a
user class are identity-based). -/
inductive PyVal where
  | none
  | int (n : Int)
  | str (s : String)
  | list (xs : List PyVal)
  | tuple (xs : List PyVal)
  | animal (objId : Nat)
  | dog (objId : Nat)

mutual
/-- Structural equality test on values (elaborated by hand because the
inductive nests `List`). -/
def pyValBeq : PyVal → PyVal → Bool
  | .none, .none => true
  | .int a, .int b => a == b
  | .str a, .str b => a == b
  | .list a, .list b => pyValBeqList a b
  | .tuple a, .tuple b => pyValBeqList a b
  | .animal a, .animal b => a == b
  | .dog a, .dog b => a == b
  | _, _ => false

/-- Elementwise equality test on value lists. -/
def pyValBeqList : List PyVal → List PyVal → Bool
  | [], [] => true
  | x :: xs, y :: ys => pyValBeq x y && pyValBeqList xs ys
  | _, _ => false
end

mutual
theorem pyValBeq_iff : ∀ (a b : PyVal), pyValBeq a b = true ↔ a = b
  | .none, b => by cases b <;> simp [pyValBeq]
  | .int n, b => by cases b <;> simp [pyValBeq]
  | .str s, b => by cases b <;> simp [pyValBeq]
  | .animal i, b => by cases b <;> simp [pyValBeq]
  | .dog i, b => by cases b <;> simp [pyValBeq]
  | .list xs, b => by cases b <;> simp [pyValBeq, pyValBeqList_iff xs]
  | .tuple xs, b => by cases b <;> simp [pyValBeq, pyValBeqList_iff xs]

theorem pyValBeqList_iff : ∀ (a b : List PyVal), pyValBeqList a b = true ↔ a = b
  | [], b => by cases b <;> simp [pyValBeqList]
  | x :: xs, b => by
      cases b <;> simp [pyValBeqList, pyValBeq_iff x, pyValBeqList_iff xs]
end

instance : DecidableEq PyVal := fun a b => decidable_of_iff _ (pyValBeq_iff a b)

instance : Inhabited PyVal := ⟨.none⟩

/-- `type(v)`: the dynamic type of a value. -/
def typeOf : PyVal → PyType
  | .none => .noneT
  | .int _ => .intT
  | .str _ => .strT
  | .list _ => .listT
  | .tuple _ => .tupleT
  | .animal _ => .animalT
  | .dog _ => .dogT

/-- `isinstance(v, cls)`: the dynamic type of `v` is `cls` or a subclass. -/
def isinstance (v : PyVal) (cls : PyType) : Bool := issubclass (typeOf v) cls

/-- Errors the embedded operations can raise. -/
inductive PyErr where
  | typeError (msg : String)
deriving DecidableEq, Repr

mutual
/-- Python hashability: lists are unhashable, tuples are hashable iff all their
elements are, everything else here (None, int, str, instances of user classes)
is hashable. -/
def hashable : PyVal → Bool
  | .list _ => false
  | .tuple xs => hashableList xs
  | _ => true

/-- All elements of the list are hashable. -/
def hashableList : List PyVal → Bool
  | [] => true
  | x :: xs => hashable x && hashableList xs
end

mutual
/-- `repr(v)` for the values of the embedding.  Builtins follow CPython
(`repr` of a string quotes it — escaping inside the string is not modelled;
a one-element tuple ends in a comma).  Instances of user classes print an
address in CPython (`<__main__.Animal object at 0x...>`); the address is not
representable here, so the identity tag stands in for it. -/
def pyRepr : PyVal → String
  | .none => "None"
  | .int n => toString n
  | .str s => "\x27" ++ s ++ "\x27"
  | .list xs => "[" ++ pyReprJoin xs ++ "]"
  | .tuple [x] => "(" ++ pyRepr x ++ ",)"
  | .tuple xs => "(" ++ pyReprJoin xs ++ ")"
  | .animal i => "<__main__.Animal object at " ++ toString i ++ ">"
  | .dog i => "<__main__.Dog object at " ++ toString i ++ ">"

/-- Comma-separated `repr`s, as inside a list/tuple display. -/
def pyReprJoin : List PyVal → String
  | [] => ""
  | [x] => pyRepr x
  | x :: xs => pyRepr x ++ ", " ++ pyReprJoin xs
end

/-- Whether a `needle in hay` substring test succeeds: some split of `hay`
has `needle` at that position (Python 2 `str.__contains__`; the empty needle
is in every string). -/
def strContainsSub (needle hay : String) : Bool :=
  (List.range (hay.length + 1)).any fun i =>
    decide ((hay.toList.drop i).take needle.length = needle.toList)

/-- The membership protocol, `needle in container`.  Strings test substrings
(and raise `TypeError` when the left operand is not a string); lists and
tuples test element equality; every other value here has no
`__contains__`/`__iter__`/`__getitem__`, so `in` raises `TypeError`. -/
def pyContains (needle container : PyVal) : Except PyErr Bool :=
  match container with
  | .str s =>
      match needle with
      | .str t => .ok (strContainsSub t s)
      | _ => .error (.typeError "\x27in <string>\x27 requires string as left operand")
  | .list xs => .ok (xs.any fun x => decide (x = needle))
  | .tuple xs => .ok (xs.any fun x => decide (x = needle))
  | _ => .error (.typeError "argument is not iterable")

/-- Whether a value supports the membership protocol (is a container). -/
def supportsMembership : PyVal → Bool
  | .str _ => true
  | .list _ => true
  | .tuple _ => true
  | _ => false

/-- `set(iterable)` construction: insert each element in turn, raising
`TypeError` on an unhashable element and collapsing duplicates (the stored
set is represented as a duplicate-free list; first occurrence kept). -/
def pySetOfList : List PyVal → Except PyErr (List PyVal)
  | [] => .ok []
  | x :: xs =>
      if hashable x then
        (pySetOfList xs).map fun s => if x ∈ s then s else x :: s
      else .error (.typeError "unhashable type")

/-- `v in s` for a set `s`: hashes the candidate first, so an unhashable
candidate raises `TypeError`; otherwise tests equality against the members. -/
def pySetContains (v : PyVal) (s : List PyVal) : Except PyErr Bool :=
  if hashable v then .ok (s.any fun x => decide (x = v))
  else .error (.typeError "unhashable type")

/-- `repr` of a set in Python 2: `set([...])` (member order is arbitrary in
CPython; here it is the stored order). -/
def pySetRepr (s : List PyVal) : String :=
  "set([" ++ pyReprJoin s ++ "])"

/-- `hasattr(v, '__iter__')` in Python 2: lists and tuples have `__iter__`;
`str`/`unicode` do NOT (they iterate via `__getitem__`), nor do int, None or
plain user-class instances. -/
def pyHasIterAttr : PyVal → Bool
  | .list _ => true
  | .tuple _ => true
  | _ => false

/-- `iter(v)` materialised as the element list, `TypeError` for
non-iterables.  (Strings are iterable in Python via `__getitem__`, but the
only call site guards with `hasattr(_, '__iter__')`, so the string case is
unreachable there; it is still modelled: iterating a string yields its
characters.) -/
def pyIter : PyVal → Except PyErr (List PyVal)
  | .list xs => .ok xs
  | .tuple xs => .ok xs
  | .str s => .ok (s.toList.map fun c => .str (String.mk [c]))
  | _ => .error (.typeError "object is not iterable")

/-- `class Any(object)` — `def __init__(self, cls=object): self._cls = cls`. -/
structure Any where
  _cls : PyType
deriving DecidableEq

/-- `Any()`: the default argument `object`. -/
def Any.default : Any := ⟨.obj⟩

/-- `Any.__eq__`: `return isinstance(other, self._cls)`.  `isinstance` never
raises when the second argument is a type, hence the unconditional `.ok`. -/
def Any.eq (m : Any) (other : PyVal) : Except PyErr Bool :=
  .ok (isinstance other m._cls)

/-- `Any.__ne__`: `return not self.__eq__(other)`. -/
def Any.ne (m : Any) (other : PyVal) : Except PyErr Bool :=
  (Any.eq m other).map (!·)

/-- `Any.__repr__`: `return 'Any(%s)' % ('' if self._cls is object else self._cls)`. -/
def Any.repr (m : Any) : String :=
  "Any(" ++ (if m._cls = .obj then "" else typeStr m._cls) ++ ")"

/-- `class Contains(object)` — `def __init__(self, value): self._value = value`. -/
structure Contains where
  _value : PyVal
deriving DecidableEq

/-- `Contains.__eq__`: `return self._value in other`.  A `TypeError` from the
membership test propagates to the caller. -/
def Contains.eq (m : Contains) (other : PyVal) : Except PyErr Bool :=
  pyContains m._value other

/-- `Contains.__ne__`: `return not self.__eq__(other)`. -/
def Contains.ne (m : Contains) (other : PyVal) : Except PyErr Bool :=
  (Contains.eq m other).map (!·)

/-- `Contains.__repr__`: `return 'Contains(%r)' % self._value`. -/
def Contains.repr (m : Contains) : String :=
  "Contains(" ++ pyRepr m._value ++ ")"

/-- `class AnyOf(object)` — holds `self._set`, a set of candidate values. -/
structure AnyOf where
  _set : List PyVal
deriving DecidableEq

/-- `AnyOf.__init__(self, *args)`:
```
if len(args) > 1 or (len(args) > 0 and (not hasattr(args[0], '__iter__')
                                        or isinstance(args[0], basestring))):
    self._set = set(args)
else:
    self._set = set(*args)
```
`set(*args)` is `set()` (empty) when `args` is empty, and `set(args[0])`
(iterating the single argument) when it has one element.  Construction can
raise `TypeError` (unhashable element), hence the `Except`. -/
def AnyOf.init (args : List PyVal) : Except PyErr AnyOf :=
  if 1 < args.length ∨
      (0 < args.length ∧
        (pyHasIterAttr args.headI = false ∨ isinstance args.headI .baseStrT = true)) then
    (pySetOfList args).map AnyOf.mk
  else
    match args with
    | [] => .ok ⟨[]⟩
    | a :: _ => (pyIter a).bind fun xs => (pySetOfList xs).map AnyOf.mk

/-- `AnyOf.__eq__`: `return other in self._set`.  Set membership hashes the
candidate, so an unhashable candidate raises `TypeError`. -/
def AnyOf.eq (m : AnyOf) (other : PyVal) : Except PyErr Bool :=
  pySetContains other m._set

/-- `AnyOf.__ne__`: `return not self.__eq__(other)`. -/
def AnyOf.ne (m : AnyOf) (other : PyVal) : Except PyErr Bool :=
  (AnyOf.eq m other).map (!·)

/-- `AnyOf.__repr__`: `return 'AnyOf(%r)' % self._set`. -/
def AnyOf.repr (m : AnyOf) : String :=
  "AnyOf(" ++ pySetRepr m._set ++ ")"

/-- A matcher of any of the three classes. -/
inductive Matcher where
  | any (m : Any)
  | contains (m : Contains)
  | anyOf (m : AnyOf)

/-- The matcher's `__eq__` method. -/
def Matcher.eq : Matcher → PyVal → Except PyErr Bool
  | .any m, v => Any.eq m v
  | .contains m, v => Contains.eq m v
  | .anyOf m, v => AnyOf.eq m v

/-- The matcher's `__ne__` method. -/
def Matcher.ne : Matcher → PyVal → Except PyErr Bool
  | .any m, v => Any.ne m v
  | .contains m, v => Contains.ne m v
  | .anyOf m, v => AnyOf.ne m v

/-- The outcome of one operand's `__eq__` method: a result, or
`NotImplemented` (telling the interpreter to try the other operand). -/
inductive EqAttempt where
  | notImplemented
  | result (r : Except PyErr Bool)

/-- A builtin (or default user-class) value's `__eq__` called with an
instance of an unrelated class — here, a matcher — returns `NotImplemented`:
builtins only know how to compare against their own kind. -/
def valDunderEqMatcher (_ : PyVal) (_ : Matcher) : EqAttempt :=
  .notImplemented

/-- A matcher's `__eq__` always returns an actual result (all three classes
compute a bool or raise; none returns `NotImplemented`). -/
def matcherDunderEq (m : Matcher) (v : PyVal) : EqAttempt :=
  .result (Matcher.eq m v)

/-- The interpreter's `==` with the matcher on the LEFT: the matcher's
`__eq__` is tried first and always yields a result. -/
def pyEqOpMatcherVal (m : Matcher) (v : PyVal) : Except PyErr Bool :=
  match matcherDunderEq m v with
  | .result r => r
  | .notImplemented => .ok false

/-- The interpreter's `==` with the matcher on the RIGHT: the left value's
`__eq__` is tried first; it returns `NotImplemented`, so the comparison is
reflected to the matcher's `__eq__`; if that too were `NotImplemented` the
comparison would fall back to identity (distinct objects, hence false). -/
def pyEqOpValMatcher (v : PyVal) (m : Matcher) : Except PyErr Bool :=
  match valDunderEqMatcher v m with
  | .result r => r
  | .notImplemented =>
      match matcherDunderEq m v with
      | .result r => r
      | .notImplemented => .ok false

/-! ### Helper lemmas -/

/-- Every type derives from `object`. -/
theorem obj_mem_ancestorsOf (t : PyType) : PyType.obj ∈ ancestorsOf t := by
  cases t <;> simp [ancestorsOf]

/-- Scanning a list for an element equal to `x` is exactly membership of `x`. -/
theorem any_beq_eq_mem (x : PyVal) (xs : List PyVal) :
    (xs.any fun e => decide (e = x)) = decide (x ∈ xs) := by
  induction xs with
  | nil => rfl
  | cons a as ih =>
      rw [List.any_cons, ih]
      by_cases h : a = x
      · simp [h, List.mem_cons]
      · have h2 : ¬ x = a := fun hh => h hh.symm
        simp [h, h2, List.mem_cons]

/-- Building a set from a list of hashable values succeeds, and the result is
duplicate-free with exactly the members of the input. -/
theorem pySetOfList_ok (xs : List PyVal) (h : hashableList xs = true) :
    ∃ s, pySetOfList xs = .ok s ∧ s.Nodup ∧ ∀ y, y ∈ s ↔ y ∈ xs := by
  induction xs with
  | nil => exact ⟨[], rfl, List.nodup_nil, by simp⟩
  | cons x xs ih =>
      rw [hashableList, Bool.and_eq_true] at h
      obtain ⟨s, hs, hnd, hmem⟩ := ih h.2
      refine ⟨if x ∈ s then s else x :: s, ?_, ?_, ?_⟩
      · simp [pySetOfList, h.1, hs, Except.map]
      · by_cases hx : x ∈ s
        · simpa [hx] using hnd
        · rw [if_neg hx]
          exact List.nodup_cons.mpr ⟨hx, hnd⟩
      · intro y
        by_cases hx : x ∈ s
        · by_cases hyx : y = x
          · simp [hx, hyx, hmem, hyx ▸ hx]
          · simp [hx, hyx, hmem]
        · simp [hx, hmem]

/-! ### The claims -/

/-- C1: `Any()` (default type) equals every value, and `Any(T) == v` is true
exactly when the dynamic type of `v` is `T` or a subclass of `T` — hence false
for a value of an unrelated type. -/
theorem C1_any_matches_by_type (T : PyType) (v : PyVal) :
    Any.eq Any.default v = .ok true ∧
    (Any.eq ⟨T⟩ v = .ok true ↔ issubclass (typeOf v) T = true) := by
  constructor
  · simp [Any.eq, Any.default, isinstance, issubclass, obj_mem_ancestorsOf]
  · simp [Any.eq, isinstance]

/-- C2: `Contains(x) == c` performs the candidate's native membership test —
element membership for list/tuple candidates, substring test for string
candidates — and raises a `TypeError` (propagated, not swallowed) when the
candidate has no membership protocol; in particular `Contains(1) == 5` raises
rather than returning false. -/
theorem C2_contains_membership (x : PyVal) (xs : List PyVal) (t s : String)
    (c : PyVal) (hc : supportsMembership c = false) :
    Contains.eq ⟨x⟩ (.list xs) = .ok (decide (x ∈ xs)) ∧
    Contains.eq ⟨x⟩ (.tuple xs) = .ok (decide (x ∈ xs)) ∧
    Contains.eq ⟨.str t⟩ (.str s) = .ok (strContainsSub t s) ∧
    (∃ msg, Contains.eq ⟨x⟩ c = .error (.typeError msg)) ∧
    Contains.eq ⟨.int 1⟩ (.int 5) =
      .error (.typeError "argument is not iterable") := by
  refine ⟨?_, ?_, rfl, ?_, rfl⟩
  · simp [Contains.eq, pyContains, any_beq_eq_mem]
  · simp [Contains.eq, pyContains, any_beq_eq_mem]
  · cases c <;> simp [supportsMembership] at hc <;>
      exact ⟨_, rfl⟩

/-- C2 witness at concrete inputs: `Contains(1) == 5` raises a `TypeError`. -/
theorem C2_contains_membership_witness :
    ∃ msg, Contains.eq ⟨.int 1⟩ (.int 5) = .error (.typeError msg) :=
  (C2_contains_membership (.int 1) [] "a" "ab" (.int 5) rfl).2.2.2.1

/-- C3: the `==` operator gives the same outcome with the matcher on either
side: a builtin candidate's `__eq__` answers `NotImplemented` for a matcher
argument, so the interpreter reflects the comparison to the matcher's
`__eq__`, which receives the candidate either way. -/
theorem C3_symmetry (m : Matcher) (v : PyVal) :
    pyEqOpMatcherVal m v = pyEqOpValMatcher v m ∧
    pyEqOpMatcherVal m v = Matcher.eq m v :=
  ⟨rfl, rfl⟩

/-- C4: constructing `AnyOf` from a single non-string iterable stores that
iterable's elements as a deduplicated set; `AnyOf([1, 2, 2, 3])` stores the
3-element set `{1, 2, 3}` and equals `2`. -/
theorem C4_anyOf_iterable_dedup (xs : List PyVal) (h : hashableList xs = true) :
    (∃ s, AnyOf.init [.list xs] = .ok ⟨s⟩ ∧ s.Nodup ∧ ∀ y, y ∈ s ↔ y ∈ xs) ∧
    AnyOf.init [.list [.int 1, .int 2, .int 2, .int 3]] =
      .ok ⟨[.int 1, .int 2, .int 3]⟩ ∧
    AnyOf.eq ⟨[.int 1, .int 2, .int 3]⟩ (.int 2) = .ok true ∧
    ([PyVal.int 1, .int 2, .int 3] : List PyVal).length = 3 ∧
    ([PyVal.int 1, .int 2, .int 3] : List PyVal).Nodup := by
  refine ⟨?_, rfl, rfl, rfl, by decide⟩
  obtain ⟨s, hs, hnd, hmem⟩ := pySetOfList_ok xs h
  refine ⟨s, ?_, hnd, hmem⟩
  simp [AnyOf.init, pyHasIterAttr, isinstance, issubclass, ancestorsOf, typeOf,
    pyIter, hs, Except.bind, Except.map]

/-- C4 witness at the concrete input `[1, 2, 2, 3]`. -/
theorem C4_anyOf_iterable_dedup_witness :
    AnyOf.init [.list [.int 1, .int 2, .int 2, .int 3]] =
      .ok ⟨[.int 1, .int 2, .int 3]⟩ :=
  (C4_anyOf_iterable_dedup [.int 1, .int 2, .int 2, .int 3] rfl).2.1

/-- C5: a single string argument is kept as one discrete candidate (strings
take the `set(args)` branch), not expanded character-by-character, so
`AnyOf("hello") == "hello"` is true. -/
theorem C5_anyOf_string_singleton (s : String) :
    AnyOf.init [.str s] = .ok ⟨[.str s]⟩ ∧
    AnyOf.eq ⟨[.str s]⟩ (.str s) = .ok true := by
  constructor
  · simp [AnyOf.init, pyHasIterAttr, pySetOfList, hashable, Except.map]
  · simp [AnyOf.eq, pySetContains, hashable]

/-- C6: whenever a matcher's `__eq__` returns a boolean (does not raise),
its `__ne__` returns exactly the negation. -/
theorem C6_ne_negates_eq (m : Matcher) (v : PyVal) (b : Bool)
    (h : Matcher.eq m v = .ok b) :
    Matcher.ne m v = .ok (!b) := by
  cases m with
  | any a =>
      simp only [Matcher.eq] at h
      simp [Matcher.ne, Any.ne, h, Except.map]
  | contains c =>
      simp only [Matcher.eq] at h
      simp [Matcher.ne, Contains.ne, h, Except.map]
  | anyOf a =>
      simp only [Matcher.eq] at h
      simp [Matcher.ne, AnyOf.ne, h, Except.map]

/-- C6 witness: `Any() != 0` is the negation of `Any() == 0`. -/
theorem C6_ne_negates_eq_witness :
    Matcher.ne (.any Any.default) (.int 0) = .ok (!true) :=
  C6_ne_negates_eq (.any Any.default) (.int 0) true rfl

/-- C7: `AnyOf.__eq__` is membership of the stored set — `AnyOf(1, 2, 3)`
equals `2` and not `4` — and an unhashable candidate raises a `TypeError`
instead of silently returning false. -/
theorem C7_anyOf_membership (m : AnyOf) (v u : PyVal)
    (hv : hashable v = true) (hu : hashable u = false) :
    (AnyOf.eq m v = .ok true ↔ v ∈ m._set) ∧
    (∃ msg, AnyOf.eq m u = .error (.typeError msg)) ∧
    AnyOf.init [.int 1, .int 2, .int 3] = .ok ⟨[.int 1, .int 2, .int 3]⟩ ∧
    AnyOf.eq ⟨[.int 1, .int 2, .int 3]⟩ (.int 2) = .ok true ∧
    AnyOf.eq ⟨[.int 1, .int 2, .int 3]⟩ (.int 4) = .ok false := by
  refine ⟨?_, ?_, rfl, rfl, rfl⟩
  · simp [AnyOf.eq, pySetContains, hv, any_beq_eq_mem]
  · simp [AnyOf.eq, pySetContains, hu]

/-- C7 witness: membership of `AnyOf(1, 2, 3)` at candidate `2`, and the
unhashable candidate `[]` raising. -/
theorem C7_anyOf_membership_witness :
    (AnyOf.eq ⟨[.int 1, .int 2, .int 3]⟩ (.int 2) = .ok true ↔
      PyVal.int 2 ∈ [PyVal.int 1, .int 2, .int 3]) ∧
    ∃ msg, AnyOf.eq ⟨[.int 1, .int 2, .int 3]⟩ (.list []) =
      .error (.typeError msg) :=
  ⟨(C7_anyOf_membership ⟨[.int 1, .int 2, .int 3]⟩ (.int 2) (.list []) rfl rfl).1,
   (C7_anyOf_membership ⟨[.int 1, .int 2, .int 3]⟩ (.int 2) (.list []) rfl rfl).2.1⟩

/-- C8: `Any.__eq__` is a bare `isinstance` test, which never raises for any
candidate value when the stored descriptor is a type: it always returns a
boolean. -/
theorem C8_any_never_raises (cls : PyType) (v : PyVal) :
    ∃ b, Any.eq ⟨cls⟩ v = .ok b :=
  ⟨isinstance v cls, rfl⟩

/-- C9 counterexample: `Any(int)` renders by interpolating the type object
with `%s`, which in Python 2 yields `<type 'int'>` — not the bare type name
`int` — so the representation is not `Any(int)`. -/
theorem C9_repr_counterexample :
    typeName .intT = "int" ∧
    Any.repr ⟨.intT⟩ ≠ "Any(" ++ typeName .intT ++ ")" ∧
    Any.repr ⟨.intT⟩ = "Any(" ++ typeStr .intT ++ ")" := by
  exact ⟨rfl, by decide, rfl⟩

/-- C9 amended: `Any` renders as `Any()` for the universal type and otherwise
as `Any(<str of the type object>)` (e.g. `Any(<type 'int'>)`), which is not
the bare type name; `Contains` renders as `Contains(<repr of needle>)` and
`AnyOf` as `AnyOf(<repr of the stored set>)`. -/
theorem C9_repr_amended (cls : PyType) (hc : cls ≠ .obj) (m : Contains)
    (a : AnyOf) :
    Any.repr Any.default = "Any()" ∧
    Any.repr ⟨cls⟩ = "Any(" ++ typeStr cls ++ ")" ∧
    Contains.repr m = "Contains(" ++ pyRepr m._value ++ ")" ∧
    Contains.repr ⟨.str "ello"⟩ = "Contains(\x27ello\x27)" ∧
    AnyOf.repr a = "AnyOf(" ++ pySetRepr a._set ++ ")" ∧
    AnyOf.repr ⟨[.int 1, .int 2, .int 3]⟩ = "AnyOf(set([1, 2, 3]))" := by
  refine ⟨rfl, ?_, rfl, rfl, rfl, rfl⟩
  simp [Any.repr, hc]

/-- C9 witness: the amended rendering at the concrete type `int`. -/
theorem C9_repr_amended_witness :
    Any.repr ⟨.intT⟩ = "Any(" ++ typeStr .intT ++ ")" :=
  (C9_repr_amended .intT (by simp) ⟨.none⟩ ⟨[]⟩).2.1

/-- C10: `AnyOf()` with no arguments stores the empty set and therefore
matches no hashable candidate. -/
theorem C10_anyOf_empty (v : PyVal) (hv : hashable v = true) :
    AnyOf.init [] = .ok ⟨[]⟩ ∧ AnyOf.eq ⟨[]⟩ v = .ok false := by
  constructor
  · rfl
  · simp [AnyOf.eq, pySetContains, hv]

/-- C10 witness at the concrete candidate `7`. -/
theorem C10_anyOf_empty_witness :
    AnyOf.init [] = .ok ⟨[]⟩ ∧ AnyOf.eq ⟨[]⟩ (.int 7) = .ok false :=
  C10_anyOf_empty (.int 7) rfl

end Mockextras
